import Mathlib

/-!
Shallow embedding of `metadata_extractor/app/extractor.py` (metashield).

External collaborators (libmagic, PIL, exifread, PyPDF2, python-docx,
mutagen) are modelled as inputs: the embedding takes the outcome each
collaborator call would produce (a success value or a raised-exception
message) and mirrors the Python control flow around them exactly.
Python floats are modelled by the exact rationals `ℚ`; `None` by
`Option`; a raised exception by the `Except.error` branch.
-/

namespace Metashield

/-- An EXIF rational as exifread delivers it: a numerator/denominator
pair of integers (`Ratio.num` / `Ratio.den`). -/
structure Rational where
  num : Int
  den : Int
deriving Repr, DecidableEq

/-- Python's `x.num / x.den` true division, defined when `den ≠ 0`. -/
def Rational.toRat (r : Rational) : ℚ := (r.num : ℚ) / (r.den : ℚ)

/-- `_convert_to_degrees` (extractor.py lines 17-23): unpack the triple,
divide each rational, return `d + m/60 + s/3600`; any failure (wrong
arity of the list, zero denominator raising `ZeroDivisionError`) is
caught and turned into `None`. -/
def _convert_to_degrees (value : List Rational) : Option ℚ :=
  match value with
  | [d, m, s] =>
      if d.den = 0 ∨ m.den = 0 ∨ s.den = 0 then none
      else some (d.toRat + m.toRat / 60 + s.toRat / 3600)
  | _ => none

/-- Python truthiness of an `Optional[str]`: `None` and `""` are falsy. -/
def strTruthy : Option String → Bool
  | none => false
  | some s => ! (s = "")

/-- Python `x or default` on an `Optional[str]`. -/
def pyOr (x : Option String) (d : String) : String :=
  if strTruthy x then x.getD d else d

/-- Python `f"{x}"` on an `Optional[str]`: `None` renders as "None". -/
def pyStr : Option String → String
  | none => "None"
  | some s => s

/-- The `presence` dict of `extract_image_metadata`. -/
structure Presence where
  gps_data : Bool
  camera_info : Bool
  timestamp : Bool
deriving Repr, DecidableEq

/-- The value stored under `info["gps"]`: either a
`{"latitude": ..., "longitude": ...}` dict (whose components are
`Optional[float]` — `_convert_to_degrees` may have returned `None`),
or the literal string `"No GPS data found"`. -/
inductive GpsField where
  | coords (latitude longitude : Option ℚ)
  | noData
deriving Repr, DecidableEq

/-- The `info` dict built by `extract_image_metadata`.  Every key the
function can set is a field; `none` models the key being absent. -/
structure ImageInfo where
  format : Option String := none
  size : Option (Nat × Nat) := none
  mode : Option String := none
  image_error : Option String := none
  raw_exif : Option (List (String × String)) := none
  camera_make : Option String := none
  camera_model : Option String := none
  datetime_original : Option String := none
  software : Option String := none
  gps : Option GpsField := none
  exif_error : Option String := none
  presence_report : Presence := ⟨false, false, false⟩
deriving Repr, DecidableEq

/-- What `exifread.process_file` handed back, as used by the caller:
the stringified tag dict (for `raw_exif` and the `exif.get` lookups)
plus the four raw GPS tag objects.  A GPS value tag carries a list of
rationals in `.values`; a reference tag carries a string.  `none`
models the tag being absent from the returned dict (exifread `IfdTag`
objects are always truthy, so presence alone decides the `if` at
line 63). -/
structure ExifData where
  tags : List (String × String)
  gpsLat : Option (List Rational) := none
  gpsLatRef : Option String := none
  gpsLon : Option (List Rational) := none
  gpsLonRef : Option String := none
deriving Repr, DecidableEq

/-- `dict.get(k)` on the stringified tag dict. -/
def lookupTag (tags : List (String × String)) (k : String) : Option String :=
  (tags.find? (fun p => p.1 = k)).map Prod.snd

/-- `dict.get(k, default)` on the stringified tag dict. -/
def lookupTagD (tags : List (String × String)) (k : String) (d : String) : String :=
  (lookupTag tags k).getD d

/-- The Python message of `-None` (`TypeError`), as caught by the
`except` clause at line 75. -/
def unaryMinusNoneMsg : String := "bad operand type for unary -: NoneType"

/-- One of the two sign steps at lines 66-69: skip when the
hemisphere reference equals its positive letter, otherwise apply the
Python unary minus to an `Optional[float]` — which raises `TypeError`
(the `none` outcome here) when the value is `None`. -/
def negStep (x : Option ℚ) (pos ref : String) : Option (Option ℚ) :=
  if ref = pos then some x
  else
    match x with
    | none => none
    | some l => some (some (-l))

/-- Lines 66-71 of extractor.py, after both `_convert_to_degrees`
calls: negate `lat` unless the latitude ref is `"N"`, negate `lon`
unless the longitude ref is `"E"`, then store the coordinate dict and
set `presence["gps_data"]`.  `lat = -lat` on `None` raises `TypeError`;
the error branch returns the `info` as it stood at the raise (the
`gps` key never gets set). -/
def gpsNegate (lat lon : Option ℚ) (latref lonref : String) (info : ImageInfo) :
    Except (String × ImageInfo) ImageInfo :=
  match negStep lat "N" latref with
  | none => Except.error (unaryMinusNoneMsg, info)
  | some lat2 =>
    match negStep lon "E" lonref with
    | none => Except.error (unaryMinusNoneMsg, info)
    | some lon2 =>
        Except.ok { info with
          gps := some (GpsField.coords lat2 lon2),
          presence_report := { info.presence_report with gps_data := true } }

/-- The body of the `try` block at lines 39-73, given a successful
`exifread.process_file` result.  Returns the updated `info`, or, when
the GPS negation raises, the exception message paired with the `info`
as already mutated before the raise. -/
def exifBody (ex : ExifData) (info : ImageInfo) :
    Except (String × ImageInfo) ImageInfo :=
  let info := { info with raw_exif := some ex.tags }
  let make := lookupTag ex.tags "Image Make"
  let model := lookupTag ex.tags "Image Model"
  let date_taken := lookupTag ex.tags "EXIF DateTimeOriginal"
  let info := { info with
    camera_make := some (pyOr make "Unknown"),
    camera_model := some (pyOr model "Unknown"),
    datetime_original := some (pyOr date_taken "Unknown"),
    software := some (lookupTagD ex.tags "Image Software" "Unknown") }
  let info :=
    if strTruthy make ∨ strTruthy model then
      { info with presence_report := { info.presence_report with camera_info := true } }
    else info
  let info :=
    if strTruthy date_taken then
      { info with presence_report := { info.presence_report with timestamp := true } }
    else info
  match ex.gpsLat, ex.gpsLatRef, ex.gpsLon, ex.gpsLonRef with
  | some latv, some latref, some lonv, some lonref =>
      gpsNegate (_convert_to_degrees latv) (_convert_to_degrees lonv) latref lonref info
  | _, _, _, _ =>
      Except.ok { info with gps := some GpsField.noData }

/-- `extract_image_metadata` (extractor.py lines 26-79).
`dec` is the outcome of `Image.open` + the three property reads
(format, size, mode), `exifRes` the outcome of
`exifread.process_file`; `.error` models a raised exception, whose
message the `except` clauses record. -/
def extract_image_metadata
    (dec : Except String (String × (Nat × Nat) × String))
    (exifRes : Except String ExifData) : ImageInfo :=
  let info : ImageInfo := {}
  let info :=
    match dec with
    | Except.ok (fmt, sz, mode) =>
        { info with format := some fmt, size := some sz, mode := some mode }
    | Except.error e => { info with image_error := some e }
  match exifRes with
  | Except.error e => { info with exif_error := some e }
  | Except.ok ex =>
    match exifBody ex info with
    | Except.ok info' => info'
    | Except.error (msg, info') => { info' with exif_error := some msg }

/-- The `summary` dict synthesized by the dispatcher for image inputs
(lines 129-134).  `Camera` is an f-string, so absent keys render as
"None"; the other three are raw `dict.get` results (`None` when the
key is absent). -/
structure Summary where
  Camera : String
  TakenOn : Option String
  Software : Option String
  GPS : Option GpsField
deriving Repr, DecidableEq

/-- Build the summary from an image info dict, exactly as lines
129-134 do. -/
def mkSummary (img : ImageInfo) : Summary :=
  { Camera := pyStr img.camera_make ++ " " ++ pyStr img.camera_model,
    TakenOn := img.datetime_original,
    Software := img.software,
    GPS := img.gps }

/-- `extract_pdf_metadata` (lines 82-90): either the pages/info pair
or a `pdf_error` string. -/
structure PdfInfo where
  num_pages : Option Nat := none
  document_info : Option (List (String × String)) := none
  pdf_error : Option String := none
deriving Repr, DecidableEq

def extract_pdf_metadata
    (reader : Except String (Nat × List (String × String))) : PdfInfo :=
  match reader with
  | Except.ok (n, di) => { num_pages := some n, document_info := some di }
  | Except.error e => { pdf_error := some e }

/-- `extract_docx_metadata` (lines 93-104). -/
structure DocxInfo where
  author : Option String := none
  title : Option String := none
  created : Option String := none
  modified : Option String := none
  docx_error : Option String := none
deriving Repr, DecidableEq

def extract_docx_metadata
    (doc : Except String (String × String × String × String)) : DocxInfo :=
  match doc with
  | Except.ok (a, t, c, m) =>
      { author := some a, title := some t, created := some c, modified := some m }
  | Except.error e => { docx_error := some e }

/-- `extract_audio_metadata` (lines 107-119): `MutagenFile` may return
a falsy value (`none` here), in which case no keys are set. -/
structure AudioInfo where
  tags : Option (List (String × String)) := none
  length : Option (Option ℚ) := none
  audio_error : Option String := none
deriving Repr, DecidableEq

def extract_audio_metadata
    (audio : Except String (Option (List (String × String) × Option ℚ))) : AudioInfo :=
  match audio with
  | Except.ok (some (t, l)) => { tags := some t, length := some l }
  | Except.ok none => {}
  | Except.error e => { audio_error := some e }

/-- Python `s.startswith(p)`: `p` is a prefix of the character
sequence of `s`. -/
def startswith (s p : String) : Bool := p.data.isPrefixOf s.data

/-- Python `pat in s` substring test. -/
def containsSub (s pat : String) : Bool := (s.splitOn pat).length ≥ 2

/-- The `result` dict of `extract_metadata`: the sniffed mime plus at
most one format section, the image summary, or the unsupported note. -/
structure Report where
  mime : String
  image : Option ImageInfo := none
  summary : Option Summary := none
  pdf : Option PdfInfo := none
  docx : Option DocxInfo := none
  audio : Option AudioInfo := none
  note : Option String := none
deriving Repr, DecidableEq

/-- All collaborator outcomes `extract_metadata` may consume for one
buffer: the sniffed mime and each extractor's underlying decode
result. -/
structure Collaborators where
  mime : String
  imageDec : Except String (String × (Nat × Nat) × String)
  exifRes : Except String ExifData
  pdfRes : Except String (Nat × List (String × String))
  docxRes : Except String (String × String × String × String)
  audioRes : Except String (Option (List (String × String) × Option ℚ))

/-- `extract_metadata` (extractor.py lines 122-148): sniff once, then
branch strictly on the mime string. -/
def extract_metadata (c : Collaborators) : Report :=
  let result : Report := { mime := c.mime }
  if startswith c.mime "image/" then
    let img_meta := extract_image_metadata c.imageDec c.exifRes
    { result with image := some img_meta, summary := some (mkSummary img_meta) }
  else if c.mime = "application/pdf" then
    { result with pdf := some (extract_pdf_metadata c.pdfRes) }
  else if containsSub c.mime "wordprocessingml" then
    { result with docx := some (extract_docx_metadata c.docxRes) }
  else if startswith c.mime "audio/" then
    { result with audio := some (extract_audio_metadata c.audioRes) }
  else
    { result with note := some "File type not supported" }

/-- The PIL image state `strip_image_metadata` reads: the decoded
`format` attribute (`None` possible) and pixel `mode`. -/
structure PILImage where
  format : Option String
  mode : String
deriving Repr, DecidableEq

/-- The arguments of the one `cleaned.save` call the function makes:
target format, JPEG quality if given, the optimize flag, the pixel
mode of the image at save time, and whether `cleaned.info` was
cleared beforehand (it always is, line 158). -/
structure SaveCall where
  format : String
  quality : Option Nat
  optimize : Bool
  mode : String
  infoCleared : Bool
deriving Repr, DecidableEq

/-- Lines 156-169: choose the re-encode path from
`(img.format or "JPEG").upper()` and the pixel mode. -/
def stripPlan (img : PILImage) : SaveCall :=
  let fmt := (img.format.getD "JPEG").toUpper
  if fmt = "JPEG" then
    { format := "JPEG", quality := some 95, optimize := true,
      mode := if img.mode = "RGBA" ∨ img.mode = "LA" ∨ img.mode = "P"
              then "RGB" else img.mode,
      infoCleared := true }
  else if fmt = "PNG" then
    { format := "PNG", quality := none, optimize := true,
      mode := img.mode, infoCleared := true }
  else
    { format := "JPEG", quality := some 95, optimize := true,
      mode := if img.mode = "RGBA" ∨ img.mode = "LA" ∨ img.mode = "P"
              then "RGB" else img.mode,
      infoCleared := true }

/-- `strip_image_metadata` (extractor.py lines 151-173).  `dec` is the
outcome of `Image.open` (+ `.copy()`), `enc` the outcome of the
`save` call for a given plan.  Any exception inside the `try` is
re-raised as `RuntimeError("Failed to strip metadata: " + e)`; the
input buffer is a value, never mutated. -/
def strip_image_metadata
    (dec : Except String PILImage)
    (enc : SaveCall → Except String (List Nat)) : Except String (List Nat) :=
  match dec with
  | Except.error e => Except.error ("Failed to strip metadata: " ++ e)
  | Except.ok img =>
    match enc (stripPlan img) with
    | Except.ok bs => Except.ok bs
    | Except.error e => Except.error ("Failed to strip metadata: " ++ e)

/-- How many of the five format sections / note of a report are
populated. -/
def sectionCount (r : Report) : Nat :=
  (if r.image.isSome then 1 else 0) + (if r.pdf.isSome then 1 else 0) +
  (if r.docx.isSome then 1 else 0) + (if r.audio.isSome then 1 else 0) +
  (if r.note.isSome then 1 else 0)

/-- Closed form of the GPS part of the exif block: the value the
`gps` key ends up with (`none` = key never set because the negation
raised), the final `gps_data` flag, and the exception message if one
was raised. -/
def gpsOutcome (ex : ExifData) : Option GpsField × Bool × Option String :=
  match ex.gpsLat, ex.gpsLatRef, ex.gpsLon, ex.gpsLonRef with
  | some latv, some latref, some lonv, some lonref =>
    match negStep (_convert_to_degrees latv) "N" latref with
    | none => (none, false, some unaryMinusNoneMsg)
    | some lat2 =>
      match negStep (_convert_to_degrees lonv) "E" lonref with
      | none => (none, false, some unaryMinusNoneMsg)
      | some lon2 => (some (GpsField.coords lat2 lon2), true, none)
  | _, _, _, _ => (some GpsField.noData, false, none)

/-- The straight-line part of the exif block (lines 42-56): raw dict,
derived camera fields, and the two non-GPS presence flags. -/
def exifBase (tags : List (String × String)) (info : ImageInfo) : ImageInfo :=
  { info with
    raw_exif := some tags,
    camera_make := some (pyOr (lookupTag tags "Image Make") "Unknown"),
    camera_model := some (pyOr (lookupTag tags "Image Model") "Unknown"),
    datetime_original := some (pyOr (lookupTag tags "EXIF DateTimeOriginal") "Unknown"),
    software := some (lookupTagD tags "Image Software" "Unknown"),
    presence_report :=
      { info.presence_report with
        camera_info :=
          if strTruthy (lookupTag tags "Image Make") ∨
             strTruthy (lookupTag tags "Image Model") then true
          else info.presence_report.camera_info,
        timestamp :=
          if strTruthy (lookupTag tags "EXIF DateTimeOriginal") then true
          else info.presence_report.timestamp } }

/-- The exif block equals: build the straight-line fields, then apply
the GPS outcome — store the coordinate object and the flag on
success, or record nothing and surface the pending exception. -/
theorem exifBody_eq (ex : ExifData) (info : ImageInfo) :
    exifBody ex info =
      match gpsOutcome ex with
      | (g, b, none) =>
          Except.ok
            { exifBase ex.tags info with
              gps := g,
              presence_report :=
                { (exifBase ex.tags info).presence_report with
                  gps_data := cond b true info.presence_report.gps_data } }
      | (_, _, some msg) => Except.error (msg, exifBase ex.tags info) := by
  rcases ex with ⟨tags, glat, glatref, glon, glonref⟩
  rcases glat with _ | latv <;> rcases glatref with _ | latref <;>
    rcases glon with _ | lonv <;> rcases glonref with _ | lonref <;>
    simp only [exifBody, gpsOutcome, gpsNegate, exifBase] <;>
    try (split_ifs <;> rfl)
  all_goals
    rcases h1 : negStep (_convert_to_degrees latv) "N" latref with _ | lat2 <;>
      rcases h2 : negStep (_convert_to_degrees lonv) "E" lonref with _ | lon2 <;>
      split_ifs <;> rfl

/-- Modelled from the spec: the §4.6 policy table, stated the way the
spec words it — PNG source gets the lossless PNG path with no mode
conversion; JPEG and every other source format get the JPEG path
(convert alpha/palette modes to RGB, fixed quality 95, optimization
on).  To be compared with `stripPlan`, the source translation. -/
def stripPolicySpec (img : PILImage) : SaveCall :=
  if (img.format.getD "JPEG").toUpper = "PNG" then
    { format := "PNG", quality := none, optimize := true,
      mode := img.mode, infoCleared := true }
  else
    { format := "JPEG", quality := some 95, optimize := true,
      mode := if img.mode = "RGBA" ∨ img.mode = "LA" ∨ img.mode = "P"
              then "RGB" else img.mode,
      infoCleared := true }

/-- A decode outcome used in concrete instantiations. -/
def decSample : Except String (String × (Nat × Nat) × String) :=
  Except.ok ("JPEG", (1, 1), "RGB")

/-- Exif result with no GPS tags at all. -/
def exNoGps : ExifData := { tags := [] }

/-- All four GPS tags present, but both rational triples malformed
(empty lists) and both hemisphere refs on the negative side. -/
def exMalformedSW : ExifData :=
  { tags := [], gpsLat := some [], gpsLatRef := some "S",
    gpsLon := some [], gpsLonRef := some "W" }

/-- All four GPS tags present; the latitude triple has a zero
denominator and a southern hemisphere ref, the longitude is a
well-formed triple with an eastern ref. -/
def exZeroDenS : ExifData :=
  { tags := [], gpsLat := some [⟨1, 0⟩, ⟨1, 1⟩, ⟨1, 1⟩], gpsLatRef := some "S",
    gpsLon := some [⟨1, 1⟩, ⟨1, 1⟩, ⟨1, 1⟩], gpsLonRef := some "E" }

/-- A well-formed longitude triple used in concrete instantiations. -/
def lonSample : List Rational := [⟨1, 1⟩, ⟨2, 1⟩, ⟨3, 1⟩]

/-- All four GPS tags present; the latitude triple is malformed but
its ref is the positive letter "N", the longitude is well formed with
ref "E". -/
def exMalformedN : ExifData :=
  { tags := [], gpsLat := some [], gpsLatRef := some "N",
    gpsLon := some lonSample, gpsLonRef := some "E" }

/-- The spec's worked CoordinateConverter example. -/
def dmsSample : List Rational := [⟨40, 1⟩, ⟨26, 1⟩, ⟨46, 1⟩]

/-- Collaborator outcomes for an image buffer whose EXIF parse
raises. -/
def collabExifFail : Collaborators :=
  { mime := "image/jpeg", imageDec := Except.ok ("JPEG", (1, 1), "RGB"),
    exifRes := Except.error "boom", pdfRes := Except.error "x",
    docxRes := Except.error "x", audioRes := Except.error "x" }

/-- Collaborator outcomes for an image buffer whose EXIF parse
succeeds but whose GPS negation raises (zero-denominator southern
latitude). -/
def collabNegRaise : Collaborators :=
  { mime := "image/jpeg", imageDec := Except.ok ("JPEG", (1, 1), "RGB"),
    exifRes := Except.ok exZeroDenS, pdfRes := Except.error "x",
    docxRes := Except.error "x", audioRes := Except.error "x" }

/-- Collaborator outcomes for an image buffer whose EXIF parse
succeeds with no tags. -/
def collabExifOk : Collaborators :=
  { mime := "image/png", imageDec := Except.ok ("PNG", (2, 2), "RGB"),
    exifRes := Except.ok exNoGps, pdfRes := Except.error "x",
    docxRes := Except.error "x", audioRes := Except.error "x" }

/-- A decoded PNG image with an alpha channel. -/
def imgSample : PILImage := { format := some "PNG", mode := "RGBA" }

/-- An encoder that always succeeds with a fixed buffer. -/
def encSample : SaveCall → Except String (List Nat) := fun _ => Except.ok [1]

/-- A GPS outcome is either a stored field with no exception, or no
stored field, a false flag, and the `TypeError` message. -/
theorem gpsOutcome_cases (ex : ExifData) :
    (∃ g b, gpsOutcome ex = (some g, b, none)) ∨
    gpsOutcome ex = (none, false, some unaryMinusNoneMsg) := by
  rcases ex with ⟨tags, glat, glatref, glon, glonref⟩
  rcases glat with _ | latv <;> rcases glatref with _ | latref <;>
    rcases glon with _ | lonv <;> rcases glonref with _ | lonref <;>
    simp only [gpsOutcome] <;>
    try (left; exact ⟨GpsField.noData, false, rfl⟩)
  all_goals
    rcases h1 : negStep (_convert_to_degrees latv) "N" latref with _ | lat2 <;>
      rcases h2 : negStep (_convert_to_degrees lonv) "E" lonref with _ | lon2 <;>
      simp

/-- The closed form of the whole image extractor on a successful
exif parse: every field of the returned dict, in terms of the decode
outcome, the tag lookups, and `gpsOutcome`. -/
theorem extract_image_metadata_ok_eq
    (dec : Except String (String × (Nat × Nat) × String)) (ex : ExifData) :
    extract_image_metadata dec (Except.ok ex) =
    { format := match dec with | Except.ok (f, _, _) => some f | Except.error _ => none,
      size := match dec with | Except.ok (_, s, _) => some s | Except.error _ => none,
      mode := match dec with | Except.ok (_, _, m) => some m | Except.error _ => none,
      image_error := match dec with | Except.ok _ => none | Except.error e => some e,
      raw_exif := some ex.tags,
      camera_make := some (pyOr (lookupTag ex.tags "Image Make") "Unknown"),
      camera_model := some (pyOr (lookupTag ex.tags "Image Model") "Unknown"),
      datetime_original := some (pyOr (lookupTag ex.tags "EXIF DateTimeOriginal") "Unknown"),
      software := some (lookupTagD ex.tags "Image Software" "Unknown"),
      gps := (gpsOutcome ex).1,
      exif_error := (gpsOutcome ex).2.2,
      presence_report :=
        ⟨(gpsOutcome ex).2.1,
         if strTruthy (lookupTag ex.tags "Image Make") ∨
            strTruthy (lookupTag ex.tags "Image Model") then true else false,
         if strTruthy (lookupTag ex.tags "EXIF DateTimeOriginal") then true
         else false⟩ } := by
  have h := exifBody_eq ex
  rcases gpsOutcome_cases ex with ⟨g, b, hg⟩ | hg
  · rcases dec with ⟨f, s, m⟩ | e <;>
      simp only [extract_image_metadata] <;> rw [h] <;>
      simp only [hg] <;> cases b <;> rfl
  · rcases dec with ⟨f, s, m⟩ | e <;>
      simp only [extract_image_metadata] <;> rw [h] <;>
      simp only [hg] <;> rfl

/-- A malformed triple — wrong arity or a zero denominator — makes
`_convert_to_degrees` return `none`. -/
theorem convert_malformed (v : List Rational)
    (h : v.length ≠ 3 ∨ ∃ r ∈ v, r.den = 0) :
    _convert_to_degrees v = none := by
  rcases v with _ | ⟨d, _ | ⟨m, _ | ⟨s, _ | ⟨t, rest⟩⟩⟩⟩ <;> try rfl
  rcases h with h | ⟨r, hr, hden⟩
  · simp at h
  · simp only [List.mem_cons, List.not_mem_nil, or_false] at hr
    simp only [_convert_to_degrees]
    rw [if_pos]
    rcases hr with rfl | rfl | rfl <;> tauto

/-- C4: on a well-formed triple of rationals the converter returns
`d + m/60 + s/3600` (division modelled exactly over `ℚ`), and the
spec's worked example `[(40,1),(26,1),(46,1)]` lands within `10⁻⁵` of
`40.44611`. -/
theorem convert_to_degrees_wellformed (d m s : Rational)
    (hd : d.den ≠ 0) (hm : m.den ≠ 0) (hs : s.den ≠ 0) :
    _convert_to_degrees [d, m, s] =
      some (d.toRat + m.toRat / 60 + s.toRat / 3600) ∧
    |(_convert_to_degrees dmsSample).getD 0 - (40.44611 : ℚ)| < 1 / 100000 := by
  constructor
  · simp [_convert_to_degrees, hd, hm, hs]
  · simp only [dmsSample, _convert_to_degrees, Rational.toRat]
    rw [abs_sub_lt_iff]
    constructor <;> norm_num

/-- Witness for C4 at the spec's own example triple. -/
theorem convert_to_degrees_wellformed_witness :
    _convert_to_degrees [⟨40, 1⟩, ⟨26, 1⟩, ⟨46, 1⟩] =
      some ((⟨40, 1⟩ : Rational).toRat + (⟨26, 1⟩ : Rational).toRat / 60 +
        (⟨46, 1⟩ : Rational).toRat / 3600) ∧
    |(_convert_to_degrees dmsSample).getD 0 - (40.44611 : ℚ)| < 1 / 100000 :=
  convert_to_degrees_wellformed ⟨40, 1⟩ ⟨26, 1⟩ ⟨46, 1⟩
    (by decide) (by decide) (by decide)

/-- C10: with all four GPS tags present, a malformed latitude triple
and refs "N"/"E", the image section's gps field is a coordinate
object with a null latitude — and `presence.gps_data` is still true. -/
theorem gps_null_coordinate_with_flag :
    (extract_image_metadata decSample (Except.ok exMalformedN)).gps =
      some (GpsField.coords none (some ((1 : ℚ) + 2 / 60 + 3 / 3600))) ∧
    (extract_image_metadata decSample
      (Except.ok exMalformedN)).presence_report.gps_data = true := by
  constructor
  · rw [extract_image_metadata_ok_eq]
    simp only [exMalformedN, gpsOutcome, negStep, lonSample, _convert_to_degrees,
      Rational.toRat]
    norm_num
  · decide

/-- C2 counterexample: all four raw GPS fields are present, yet
`gps_data` is false (the malformed southern latitude makes the
negation raise), so "gps_data is true iff all four raw GPS fields are
present" fails; moreover the gps field is not the no-data marker. -/
theorem gps_presence_iff_counterexample :
    (exMalformedSW.gpsLat ≠ none ∧ exMalformedSW.gpsLatRef ≠ none ∧
     exMalformedSW.gpsLon ≠ none ∧ exMalformedSW.gpsLonRef ≠ none) ∧
    (extract_image_metadata decSample
      (Except.ok exMalformedSW)).presence_report.gps_data = false ∧
    (extract_image_metadata decSample (Except.ok exMalformedSW)).gps ≠
      some GpsField.noData := by
  refine ⟨⟨?_, ?_, ?_, ?_⟩, ?_, ?_⟩ <;> decide

/-- C2 amended: `gps_data` is true iff all four raw GPS fields are
present AND each coordinate whose conversion failed has its
hemisphere ref equal to the positive letter (otherwise the negation
raises and the flag stays false); if any of the four fields is
absent, the gps field is the literal "No GPS data found" marker and
`gps_data` is false. -/
theorem gps_presence_amended
    (dec : Except String (String × (Nat × Nat) × String)) (ex : ExifData) :
    ((extract_image_metadata dec (Except.ok ex)).presence_report.gps_data = true ↔
      ∃ latv latref lonv lonref,
        ex.gpsLat = some latv ∧ ex.gpsLatRef = some latref ∧
        ex.gpsLon = some lonv ∧ ex.gpsLonRef = some lonref ∧
        (latref = "N" ∨ (_convert_to_degrees latv).isSome = true) ∧
        (lonref = "E" ∨ (_convert_to_degrees lonv).isSome = true)) ∧
    ((ex.gpsLat = none ∨ ex.gpsLatRef = none ∨ ex.gpsLon = none ∨
      ex.gpsLonRef = none) →
      (extract_image_metadata dec (Except.ok ex)).gps = some GpsField.noData ∧
      (extract_image_metadata dec
        (Except.ok ex)).presence_report.gps_data = false) := by
  rw [extract_image_metadata_ok_eq]
  constructor
  · rcases ex with ⟨tags, glat, glatref, glon, glonref⟩
    rcases glat with _ | latv <;> rcases glatref with _ | latref <;>
      rcases glon with _ | lonv <;> rcases glonref with _ | lonref <;>
        simp only [gpsOutcome] <;> try simp
    by_cases hN : latref = "N" <;> by_cases hE : lonref = "E" <;>
      rcases hlat : _convert_to_degrees latv with _ | l <;>
      rcases hlon : _convert_to_degrees lonv with _ | o <;>
      simp_all [negStep]
  · intro habs
    rcases ex with ⟨tags, glat, glatref, glon, glonref⟩
    rcases glat with _ | latv <;> rcases glatref with _ | latref <;>
      rcases glon with _ | lonv <;> rcases glonref with _ | lonref <;>
      simp_all [gpsOutcome]

/-- Witness for C2's amended theorem: with no GPS tags at all the gps
field is the marker and the flag is false. -/
theorem gps_presence_amended_witness :
    (extract_image_metadata decSample (Except.ok exNoGps)).gps =
      some GpsField.noData ∧
    (extract_image_metadata decSample
      (Except.ok exNoGps)).presence_report.gps_data = false :=
  (gps_presence_amended decSample exNoGps).2 (Or.inl rfl)

/-- C3 counterexample: a zero-denominator latitude triple with ref
"S" — the conversion itself returns null, but the caller then negates
the null and an exception IS raised past the conversion (caught at
the exif-block boundary and recorded as `exif_error`; the gps key is
never written). -/
theorem convert_malformed_exception_counterexample :
    _convert_to_degrees [⟨1, 0⟩, ⟨1, 1⟩, ⟨1, 1⟩] = none ∧
    (extract_image_metadata decSample (Except.ok exZeroDenS)).exif_error =
      some unaryMinusNoneMsg ∧
    (extract_image_metadata decSample (Except.ok exZeroDenS)).gps = none := by
  refine ⟨?_, ?_, ?_⟩ <;> decide

/-- C3 amended: a malformed triple converts to null; if its
hemisphere ref is the positive letter the null flows into the
coordinate object (no exception), otherwise negating the null raises
a `TypeError` that the exif-block handler catches and records as
`exif_error` — in both cases `extract_image_metadata` returns a
report rather than failing. -/
theorem convert_malformed_amended
    (dec : Except String (String × (Nat × Nat) × String))
    (tags : List (String × String)) (latv lonv : List Rational)
    (latref lonref : String)
    (hmal : latv.length ≠ 3 ∨ ∃ r ∈ latv, r.den = 0) :
    _convert_to_degrees latv = none ∧
    (latref ≠ "N" →
      (extract_image_metadata dec (Except.ok
        ⟨tags, some latv, some latref, some lonv, some lonref⟩)).exif_error =
        some unaryMinusNoneMsg ∧
      (extract_image_metadata dec (Except.ok
        ⟨tags, some latv, some latref, some lonv, some lonref⟩)).gps = none) ∧
    (latref = "N" → lonref = "E" →
      (extract_image_metadata dec (Except.ok
        ⟨tags, some latv, some latref, some lonv, some lonref⟩)).exif_error =
        none ∧
      (extract_image_metadata dec (Except.ok
        ⟨tags, some latv, some latref, some lonv, some lonref⟩)).gps =
        some (GpsField.coords none (_convert_to_degrees lonv)) ∧
      (extract_image_metadata dec (Except.ok
        ⟨tags, some latv, some latref, some lonv,
          some lonref⟩)).presence_report.gps_data = true) := by
  have hnone := convert_malformed latv hmal
  refine ⟨hnone, ?_, ?_⟩
  · intro hne
    rw [extract_image_metadata_ok_eq]
    simp [gpsOutcome, negStep, hnone, hne]
  · intro hN hE
    rw [extract_image_metadata_ok_eq]
    simp [gpsOutcome, negStep, hnone, hN, hE]

/-- Witness for C3's amended theorem: empty latitude triple, refs
"N"/"E" — the null latitude is embedded, no exception. -/
theorem convert_malformed_amended_witness :
    (extract_image_metadata decSample (Except.ok
      ⟨[], some [], some "N", some lonSample, some "E"⟩)).exif_error = none ∧
    (extract_image_metadata decSample (Except.ok
      ⟨[], some [], some "N", some lonSample, some "E"⟩)).gps =
      some (GpsField.coords none (_convert_to_degrees lonSample)) ∧
    (extract_image_metadata decSample (Except.ok
      ⟨[], some [], some "N", some lonSample,
        some "E"⟩)).presence_report.gps_data = true :=
  (convert_malformed_amended decSample [] [] lonSample "N" "E"
    (Or.inl (by decide))).2.2 rfl rfl

/-- C5: with all four raw GPS fields present and both conversions
numerically successful, the reported latitude is negated unless the
latitude ref is exactly "N", and the longitude is negated unless the
longitude ref is exactly "E". -/
theorem gps_sign_convention
    (dec : Except String (String × (Nat × Nat) × String))
    (tags : List (String × String)) (latv lonv : List Rational)
    (latref lonref : String) (l o : ℚ)
    (hlat : _convert_to_degrees latv = some l)
    (hlon : _convert_to_degrees lonv = some o) :
    (extract_image_metadata dec (Except.ok
      ⟨tags, some latv, some latref, some lonv, some lonref⟩)).gps =
      some (GpsField.coords (some (if latref = "N" then l else -l))
        (some (if lonref = "E" then o else -o))) ∧
    (extract_image_metadata dec (Except.ok
      ⟨tags, some latv, some latref, some lonv,
        some lonref⟩)).presence_report.gps_data = true := by
  rw [extract_image_metadata_ok_eq]
  by_cases hN : latref = "N" <;> by_cases hE : lonref = "E" <;>
    simp [gpsOutcome, negStep, hlat, hlon, hN, hE]

/-- Witness for C5: the spec's example triple with southern latitude
and eastern longitude. -/
theorem gps_sign_convention_witness :
    (extract_image_metadata decSample (Except.ok
      ⟨[], some dmsSample, some "S", some lonSample, some "E"⟩)).gps =
      some (GpsField.coords
        (some (if ("S" : String) = "N" then (72803 : ℚ) / 1800
               else -((72803 : ℚ) / 1800)))
        (some (if ("E" : String) = "E" then (1241 : ℚ) / 1200
               else -((1241 : ℚ) / 1200)))) ∧
    (extract_image_metadata decSample (Except.ok
      ⟨[], some dmsSample, some "S", some lonSample,
        some "E"⟩)).presence_report.gps_data = true :=
  gps_sign_convention decSample [] dmsSample lonSample "S" "E"
    ((72803 : ℚ) / 1800) ((1241 : ℚ) / 1200)
    (by simp only [dmsSample, _convert_to_degrees, Rational.toRat]; norm_num)
    (by simp only [lonSample, _convert_to_degrees, Rational.toRat]; norm_num)

/-- C1: the dispatcher is total — the report carries the sniffed
mime, exactly one populated section, and which section it is follows
the sniffed type's category (image/* then application/pdf then the
word-processing marker then audio/*, else the unsupported note). -/
theorem extract_metadata_total_one_section (c : Collaborators) :
    (extract_metadata c).mime = c.mime ∧
    sectionCount (extract_metadata c) = 1 ∧
    ((extract_metadata c).image.isSome ↔ startswith c.mime "image/" = true) ∧
    ((extract_metadata c).pdf.isSome ↔
      (startswith c.mime "image/" = false ∧ c.mime = "application/pdf")) ∧
    ((extract_metadata c).docx.isSome ↔
      (startswith c.mime "image/" = false ∧ c.mime ≠ "application/pdf" ∧
       containsSub c.mime "wordprocessingml" = true)) ∧
    ((extract_metadata c).audio.isSome ↔
      (startswith c.mime "image/" = false ∧ c.mime ≠ "application/pdf" ∧
       containsSub c.mime "wordprocessingml" = false ∧
       startswith c.mime "audio/" = true)) ∧
    ((extract_metadata c).note =
      if startswith c.mime "image/" = false ∧ c.mime ≠ "application/pdf" ∧
         containsSub c.mime "wordprocessingml" = false ∧
         startswith c.mime "audio/" = false
       then some "File type not supported" else none) := by
  unfold extract_metadata sectionCount
  split_ifs <;> simp_all

/-- C6: the re-encode plan follows the spec's policy table — PNG
sources are re-encoded as PNG with optimization and no mode
conversion; JPEG and every other/unrecognized source format take the
JPEG path (alpha/palette modes converted to RGB, quality 95,
optimization on); the image's ancillary `info` state is cleared; and
the returned buffer is exactly what encoding the plan produces. -/
theorem strip_policy_by_format (img : PILImage) :
    stripPlan img = stripPolicySpec img ∧
    (stripPlan img).infoCleared = true ∧
    (∀ enc : SaveCall → Except String (List Nat), ∀ bs : List Nat,
      strip_image_metadata (Except.ok img) enc = Except.ok bs ↔
        enc (stripPlan img) = Except.ok bs) := by
  refine ⟨?_, ?_, ?_⟩
  · simp only [stripPlan, stripPolicySpec]
    split_ifs <;> simp_all
  · simp only [stripPlan]
    split_ifs <;> rfl
  · intro enc bs
    unfold strip_image_metadata
    rcases h : enc (stripPlan img) with e | bs' <;> simp [h]

/-- C7: stripping fails exactly when decoding fails or re-encoding
the chosen plan fails, the failure is the wrapped strip error, and a
decode failure surfaces with the decoder's message inside it.  The
embedding is a pure function of the input buffer's decode outcome, so
the original buffer is never mutated. -/
theorem strip_error_iff (dec : Except String PILImage)
    (enc : SaveCall → Except String (List Nat)) :
    ((∃ e, strip_image_metadata dec enc = Except.error e) ↔
      (∃ e, dec = Except.error e) ∨
      (∃ img, dec = Except.ok img ∧ ∃ e, enc (stripPlan img) = Except.error e)) ∧
    (∀ e, strip_image_metadata (Except.error e) enc =
      Except.error ("Failed to strip metadata: " ++ e)) := by
  constructor
  · rcases dec with e | img
    · simp [strip_image_metadata]
    · rcases h : enc (stripPlan img) with e | bs <;> simp [strip_image_metadata, h]
  · intro e
    rfl

/-- C8: extractor failures are isolated — with a successful decode
the basic properties survive any EXIF outcome; an EXIF parse failure
is recorded as `exif_error` next to them; a decode failure is
recorded as `image_error` and leaves every EXIF-derived field exactly
as it would be under a successful decode; and for an image mime the
report always carries the image section and no other format
section. -/
theorem extractor_failure_isolation :
    (∀ (f : String) (s : Nat × Nat) (m : String)
        (exifRes : Except String ExifData),
      (extract_image_metadata (Except.ok (f, s, m)) exifRes).format = some f ∧
      (extract_image_metadata (Except.ok (f, s, m)) exifRes).size = some s ∧
      (extract_image_metadata (Except.ok (f, s, m)) exifRes).mode = some m) ∧
    (∀ (f : String) (s : Nat × Nat) (m err : String),
      (extract_image_metadata (Except.ok (f, s, m))
        (Except.error err)).exif_error = some err) ∧
    (∀ (e : String) (exifRes : Except String ExifData)
        (dec : Except String (String × (Nat × Nat) × String)),
      (extract_image_metadata (Except.error e) exifRes).image_error = some e ∧
      (extract_image_metadata (Except.error e) exifRes).raw_exif =
        (extract_image_metadata dec exifRes).raw_exif ∧
      (extract_image_metadata (Except.error e) exifRes).camera_make =
        (extract_image_metadata dec exifRes).camera_make ∧
      (extract_image_metadata (Except.error e) exifRes).camera_model =
        (extract_image_metadata dec exifRes).camera_model ∧
      (extract_image_metadata (Except.error e) exifRes).datetime_original =
        (extract_image_metadata dec exifRes).datetime_original ∧
      (extract_image_metadata (Except.error e) exifRes).software =
        (extract_image_metadata dec exifRes).software ∧
      (extract_image_metadata (Except.error e) exifRes).gps =
        (extract_image_metadata dec exifRes).gps ∧
      (extract_image_metadata (Except.error e) exifRes).exif_error =
        (extract_image_metadata dec exifRes).exif_error ∧
      (extract_image_metadata (Except.error e) exifRes).presence_report =
        (extract_image_metadata dec exifRes).presence_report) ∧
    (∀ c : Collaborators, startswith c.mime "image/" = true →
      (extract_metadata c).image =
        some (extract_image_metadata c.imageDec c.exifRes) ∧
      (extract_metadata c).pdf = none ∧ (extract_metadata c).docx = none ∧
      (extract_metadata c).audio = none ∧ (extract_metadata c).note = none) := by
  refine ⟨?_, ?_, ?_, ?_⟩
  · intro f s m exifRes
    rcases exifRes with e | ex
    · exact ⟨rfl, rfl, rfl⟩
    · rw [extract_image_metadata_ok_eq]; exact ⟨rfl, rfl, rfl⟩
  · intro f s m err
    rfl
  · intro e exifRes dec
    rcases exifRes with err | ex
    · rcases dec with ⟨f, s, m⟩ | e' <;>
        exact ⟨rfl, rfl, rfl, rfl, rfl, rfl, rfl, rfl, rfl⟩
    · simp only [extract_image_metadata_ok_eq]
      rcases dec with ⟨f, s, m⟩ | e' <;> simp
  · intro c hc
    unfold extract_metadata
    rw [if_pos hc]
    exact ⟨rfl, rfl, rfl, rfl, rfl⟩

/-- Witness for C8's image-mime conjunct at a concrete collaborator
outcome. -/
theorem extractor_failure_isolation_witness :
    (extract_metadata collabExifFail).image =
      some (extract_image_metadata collabExifFail.imageDec
        collabExifFail.exifRes) ∧
    (extract_metadata collabExifFail).pdf = none ∧
    (extract_metadata collabExifFail).docx = none ∧
    (extract_metadata collabExifFail).audio = none ∧
    (extract_metadata collabExifFail).note = none :=
  extractor_failure_isolation.2.2.2 collabExifFail (by decide)

/-- C9 counterexample: two image inputs on which the claimed summary
shape fails.  When the EXIF parse raises, the summary's Camera field
is the f-string rendering of two absent keys — "None None", not the
"Unknown"-defaulted derived values — and Taken On, Software and GPS
are null.  When the parse succeeds but the GPS negation raises (the
TypeError of the zero-denominator southern latitude), the other
fields keep their derived values yet the summary's GPS is null — not
the derived coordinate or the no-data marker. -/
theorem summary_defaults_counterexample :
    (extract_metadata collabExifFail).summary =
      some { Camera := "None None", TakenOn := none, Software := none,
             GPS := none } ∧
    ("None None" : String) ≠ "Unknown Unknown" ∧
    (extract_metadata collabNegRaise).summary =
      some { Camera := "Unknown Unknown", TakenOn := some "Unknown",
             Software := some "Unknown", GPS := none } := by
  refine ⟨?_, ?_, ?_⟩
  · rfl
  · decide
  · rfl

/-- C9 amended: for an image mime whose EXIF block completes without
an exception (the parse succeeds and the GPS negation does not
raise), the summary is Camera = make + " " + model, Taken On =
datetime_original, Software = software, GPS = the gps value (a
coordinate object or the no-data marker, never an absent key), each
derived value defaulting to "Unknown" when its tag is absent. -/
theorem summary_amended (c : Collaborators) (ex : ExifData)
    (hmime : startswith c.mime "image/" = true)
    (hex : c.exifRes = Except.ok ex)
    (hnoerr : (gpsOutcome ex).2.2 = none) :
    (extract_metadata c).summary = some
      { Camera := pyOr (lookupTag ex.tags "Image Make") "Unknown" ++ " " ++
          pyOr (lookupTag ex.tags "Image Model") "Unknown",
        TakenOn := some (pyOr (lookupTag ex.tags "EXIF DateTimeOriginal")
          "Unknown"),
        Software := some (lookupTagD ex.tags "Image Software" "Unknown"),
        GPS := (gpsOutcome ex).1 } ∧
    (gpsOutcome ex).1 ≠ none := by
  constructor
  · unfold extract_metadata
    rw [if_pos hmime, hex, extract_image_metadata_ok_eq]
    rfl
  · rcases gpsOutcome_cases ex with ⟨g, b, hg⟩ | hg
    · rw [hg]; simp
    · rw [hg] at hnoerr; simp at hnoerr

/-- Witness for C9's amended theorem: successful tag-free EXIF parse
gives the fully "Unknown"-defaulted summary with the no-data GPS
marker. -/
theorem summary_amended_witness :
    (extract_metadata collabExifOk).summary = some
      { Camera := pyOr (lookupTag exNoGps.tags "Image Make") "Unknown" ++
          " " ++ pyOr (lookupTag exNoGps.tags "Image Model") "Unknown",
        TakenOn := some (pyOr (lookupTag exNoGps.tags "EXIF DateTimeOriginal")
          "Unknown"),
        Software := some (lookupTagD exNoGps.tags "Image Software" "Unknown"),
        GPS := (gpsOutcome exNoGps).1 } ∧
    (gpsOutcome exNoGps).1 ≠ none :=
  summary_amended collabExifOk exNoGps (by decide) rfl rfl

end Metashield
